import Mathlib

/-!
Verification of the EquiGrader backend (backend/main.py): the question
store, the grading pipeline `perform_evaluation`, and the audio upload
handler. Python dicts are modelled as ordered association lists, JSON
values as an inductive type with exact rational numbers, and the external
effects (the ollama chat call, `json.loads`, the whisper transcription,
the upload copy) as explicit oracle parameters describing whether and how
each call returns or raises.
-/

/-- One rubric entry of a stored question (questions.json schema used by
backend/main.py). -/
structure RubricItem where
  point : String
  expected_answer : String

/-- A stored interview question (questions.json schema used by
backend/main.py). -/
structure Question where
  id : String
  topic : String
  question : String
  scoring_rubric : List RubricItem

/-- JSON values as produced by json.loads; numbers are modelled as exact
rationals. -/
inductive Json where
  | null
  | bool (b : Bool)
  | num (q : ℚ)
  | str (s : String)
  | arr (elems : List Json)
  | obj (fields : List (String × Json))

/-- Python dict read over an ordered association list: first matching key. -/
def lookupField (fields : List (String × Json)) (key : String) : Option Json :=
  match fields with
  | [] => none
  | (k, v) :: rest => if k = key then some v else lookupField rest key

/-- Python dict assignment over an ordered association list: overwrite in
place when the key is present, append at the end otherwise. -/
def setField (fields : List (String × Json)) (key : String) (v : Json) :
    List (String × Json) :=
  match fields with
  | [] => [(key, v)]
  | (k, w) :: rest =>
    if k = key then (k, v) :: rest else (k, w) :: setField rest key v

/-- Embeds get_question_by_id (backend/main.py lines 58-63): linear scan of
the question bank, first record whose id matches, None when absent. -/
def get_question_by_id (bank : List Question) (question_id : String) :
    Option Question :=
  match bank with
  | [] => none
  | q :: rest =>
      if q.id = question_id then some q else get_question_by_id rest question_id

/-- Python str.lower over the characters of a string. -/
def pyLower (s : String) : List Char := s.toList.map Char.toLower

/-- Embeds the topic filter inside get_question (backend/main.py line 170):
keep the stored questions whose lowercased topic contains the lowercased
query as a substring, in bank order. -/
def find_by_topic (bank : List Question) (topic : String) : List Question :=
  bank.filter (fun q => decide (pyLower topic <:+: pyLower q.topic))

/-- The opening brace character. -/
def lbrace : Char := Char.ofNat 123

/-- The closing brace character. -/
def rbrace : Char := Char.ofNat 125

/-- Embeds the tolerant JSON extraction (backend/main.py line 129): the
regex search returns the substring running from the first opening brace to
the last closing brace after it, and None when no such pair exists. -/
def extractJsonStr (s : List Char) : Option (List Char) :=
  let t := s.dropWhile (fun c => c != lbrace)
  let r := (t.reverse.dropWhile (fun c => c != rbrace)).reverse
  if r.isEmpty then none else some r

/-- Python int() on an exact rational: truncation toward zero. -/
def pyInt (q : ℚ) : ℤ := if q < 0 then -((-q).floor) else q.floor

/-- Embeds the score normalization (backend/main.py lines 146-154): a score
in (0, 1] is scaled by 100, a score in (1, 10] is scaled by int((s/5)*100)
with a branch-local cap at 100, and every other score is left untouched. -/
def normalize_score (score : ℚ) : ℚ :=
  if 0 < score ∧ score ≤ 1 then ((pyInt (score * 100) : ℤ) : ℚ)
  else if 1 < score ∧ score ≤ 10 then
    let s : ℤ := pyInt (score / 5 * 100)
    if 100 < s then (100 : ℚ) else (s : ℚ)
  else score

/-- Embeds the normalization stage (backend/main.py lines 144-154): read
the overall_score key with default 0, run the scale branches, and write the
final score back into the object. A Python boolean is an int subclass, so
True enters the first branch and scales to 100 while False skips both
branches and is stored back unchanged; comparing any other non-number with
0 raises TypeError, modelled as none. -/
def applyNormalization (result : List (String × Json)) :
    Option (List (String × Json)) :=
  match lookupField result "overall_score" with
  | none => some (setField result "overall_score" (Json.num (normalize_score 0)))
  | some (Json.num q) =>
      some (setField result "overall_score" (Json.num (normalize_score q)))
  | some (Json.bool true) =>
      some (setField result "overall_score" (Json.num (normalize_score 1)))
  | some (Json.bool false) =>
      some (setField result "overall_score" (Json.bool false))
  | some _ => none

/-- The fixed fallback result returned when the reply holds no JSON object
(backend/main.py lines 137-141). -/
def fallbackResult : List (String × Json) :=
  [("overall_score", Json.num 70),
   ("final_summary",
    Json.str "Good effort. The AI understood your answer but failed to format the score."),
   ("rubric_evaluation", Json.arr [])]

/-- The fixed system-error result returned by the except handler
(backend/main.py lines 159-163). -/
def systemErrorResult : List (String × Json) :=
  [("overall_score", Json.num 0),
   ("final_summary", Json.str "System Error: Could not evaluate answer."),
   ("rubric_evaluation", Json.arr [])]

/-- The only exception perform_evaluation raises past its boundary: the 404
HTTPException for an unknown question id (backend/main.py line 82). -/
inductive PipeError where
  | notFound

/-- Embeds the try block of perform_evaluation (backend/main.py lines
121-163) once the question is resolved. modelReply is the outcome of the
ollama.chat call (none: the call raised); parse is the behaviour of
json.loads on the extracted substring (none: it raised). Every raise
inside the block falls to the except handler, which returns
systemErrorResult; a reply without a brace pair returns fallbackResult;
otherwise the parsed object is returned with its overall_score key set to
the normalized score. -/
def evalBody (modelReply : Option (List Char))
    (parse : List Char → Option (List (String × Json))) :
    List (String × Json) :=
  match modelReply with
  | none => systemErrorResult
  | some raw =>
    match extractJsonStr raw with
    | none => fallbackResult
    | some cleanJson =>
      match parse cleanJson with
      | none => systemErrorResult
      | some result =>
        match applyNormalization result with
        | none => systemErrorResult
        | some final => final

/-- Embeds perform_evaluation (backend/main.py lines 75-163): resolve the
question id first, raising the 404 when it is absent; otherwise run the
guarded evaluation body. The answer text only enters the prompt, never the
observable result. -/
def perform_evaluation (bank : List Question) (question_id : String)
    (answer_text : String) (modelReply : Option (List Char))
    (parse : List Char → Option (List (String × Json))) :
    Except PipeError (List (String × Json)) :=
  match get_question_by_id bank question_id with
  | none => Except.error PipeError.notFound
  | some _ => Except.ok (evalBody modelReply parse)

/-- Exceptions that can escape the audio upload handler: a raise while
copying the upload (before the try/finally), a raise inside the whisper
transcription, or the 404 from perform_evaluation. -/
inductive AudioError where
  | saveRaised
  | transcribeRaised
  | notFound

/-- Embeds evaluate_audio (backend/main.py lines 180-201). saveOk tells
whether shutil.copyfileobj returns; transcription is the outcome of
transcribe_audio_to_text (none: the whisper call raised; the disabled-model
sentinel string is an ordinary value). The second component reports whether
the temporary file still exists when the handler returns: open(temp_path,
"wb") creates the file before the try/finally, so a raise during the copy
escapes with the file still on disk, while every later path runs the
finally block that removes it. -/
def evaluate_audio (saveOk : Bool) (transcription : Option String)
    (bank : List Question) (question_id : String)
    (modelReply : Option (List Char))
    (parse : List Char → Option (List (String × Json))) :
    Except AudioError (List (String × Json)) × Bool :=
  if saveOk then
    match transcription with
    | none => (Except.error AudioError.transcribeRaised, false)
    | some text =>
      match perform_evaluation bank question_id text modelReply parse with
      | Except.error _ => (Except.error AudioError.notFound, false)
      | Except.ok result =>
          (Except.ok (setField result "transcribed_text" (Json.str text)), false)
  else
    (Except.error AudioError.saveRaised, true)

/-! Helper lemmas about the embedded operations. -/

theorem ratFloor_eq_intFloor (q : ℚ) : q.floor = ⌊q⌋ := by
  rw [Rat.floor_def', Rat.floor_def]

theorem pyInt_eq_floor (q : ℚ) (h : ¬ q < 0) : pyInt q = ⌊q⌋ := by
  rw [pyInt, if_neg h, ratFloor_eq_intFloor]

theorem pyInt_natCast (n : ℕ) : pyInt (n : ℚ) = (n : ℤ) := by
  rw [pyInt_eq_floor _ (not_lt.mpr (by positivity))]
  exact_mod_cast Int.floor_natCast n

theorem normalize_score_low (s : ℚ) (h0 : 0 < s) (h1 : s ≤ 1) :
    normalize_score s = ((pyInt (s * 100) : ℤ) : ℚ) := by
  rw [normalize_score, if_pos ⟨h0, h1⟩]

theorem normalize_score_mid (s : ℚ) (h1 : 1 < s) (h10 : s ≤ 10) :
    normalize_score s =
      if 100 < pyInt (s / 5 * 100) then (100 : ℚ)
      else ((pyInt (s / 5 * 100) : ℤ) : ℚ) := by
  rw [normalize_score, if_neg (by rintro ⟨_, hb⟩; exact absurd h1 (not_lt.mpr hb)),
    if_pos ⟨h1, h10⟩]

theorem normalize_score_other (s : ℚ) (h : ¬ (0 < s ∧ s ≤ 10)) :
    normalize_score s = s := by
  rw [normalize_score, if_neg (by rintro ⟨ha, hb⟩; exact h ⟨ha, hb.trans (by norm_num)⟩),
    if_neg (by rintro ⟨ha, hb⟩; exact h ⟨lt_trans one_pos ha, hb⟩)]

theorem lookupField_setField_same (fields : List (String × Json)) (key : String)
    (v : Json) : lookupField (setField fields key v) key = some v := by
  induction fields with
  | nil => simp [setField, lookupField]
  | cons p rest ih =>
    obtain ⟨k, w⟩ := p
    by_cases h : k = key
    · simp [setField, lookupField, h]
    · simp [setField, lookupField, h, ih]

theorem lookupField_setField_other (fields : List (String × Json)) (key k2 : String)
    (v : Json) (h : k2 ≠ key) :
    lookupField (setField fields key v) k2 = lookupField fields k2 := by
  induction fields with
  | nil => simp [setField, lookupField, Ne.symm h]
  | cons p rest ih =>
    obtain ⟨k, w⟩ := p
    by_cases hk : k = key
    · subst hk
      simp [setField, lookupField, Ne.symm h]
    · simp [setField, lookupField, hk, ih]

theorem dropWhile_append_of_forall {α : Type} (p : α → Bool) (l1 l2 : List α)
    (h : ∀ a ∈ l1, p a = true) :
    (l1 ++ l2).dropWhile p = l2.dropWhile p := by
  induction l1 with
  | nil => simp
  | cons a rest ih =>
    rw [List.cons_append, List.dropWhile_cons_of_pos (h a (List.mem_cons_self a rest))]
    exact ih (fun b hb => h b (List.mem_cons_of_mem a hb))

theorem extractJsonStr_split (pre mid post : List Char)
    (hpre : lbrace ∉ pre) (hpost : rbrace ∉ post) :
    extractJsonStr (pre ++ lbrace :: (mid ++ rbrace :: post)) =
      some (lbrace :: (mid ++ [rbrace])) := by
  have h1 : (pre ++ lbrace :: (mid ++ rbrace :: post)).dropWhile (fun c => c != lbrace)
      = lbrace :: (mid ++ rbrace :: post) := by
    rw [dropWhile_append_of_forall _ pre _
      (fun a ha => bne_iff_ne.mpr (ne_of_mem_of_not_mem ha hpre))]
    exact List.dropWhile_cons_of_neg (by simp)
  have h2 : (lbrace :: (mid ++ rbrace :: post)).reverse
      = post.reverse ++ rbrace :: (mid.reverse ++ [lbrace]) := by
    simp
  have h3 : (post.reverse ++ rbrace :: (mid.reverse ++ [lbrace])).dropWhile
      (fun c => c != rbrace) = rbrace :: (mid.reverse ++ [lbrace]) := by
    rw [dropWhile_append_of_forall _ post.reverse _
      (fun a ha => bne_iff_ne.mpr
        (ne_of_mem_of_not_mem (List.mem_reverse.mp ha) hpost))]
    exact List.dropWhile_cons_of_neg (by simp)
  have h4 : (rbrace :: (mid.reverse ++ [lbrace])).reverse
      = lbrace :: (mid ++ [rbrace]) := by
    simp
  simp only [extractJsonStr]
  rw [h1, h2, h3, h4]
  simp

/-! Concrete fixtures used by witnesses and counterexamples. -/

/-- A one-question bank used in concrete runs. -/
def q1 : Question :=
  { id := "q1", topic := "ECE", question := "Explain Ohms law", scoring_rubric := [] }

/-- The question bank holding only q1. -/
def bank1 : List Question := [q1]

/-- A model reply whose JSON object carries the over-range score 150. -/
def raw150 : List Char := lbrace :: ("\"overall_score\": 150".toList ++ [rbrace])

/-- The object json.loads produces from raw150. -/
def fields150 : List (String × Json) := [("overall_score", Json.num 150)]

/-- The behaviour of json.loads on the extraction from raw150. -/
def parse150 : List Char → Option (List (String × Json)) :=
  fun s => if s = raw150 then some fields150 else none

/-- A model reply whose brace pair encloses text that is not JSON, so
json.loads raises on it. -/
def rawBad : List Char := lbrace :: ("bad".toList ++ [rbrace])

/-- A JSON object reply carrying the integer score 90. -/
def innerObj : List Char := lbrace :: ("\"overall_score\": 90".toList ++ [rbrace])

/-- The reply that wraps innerObj in surrounding prose. -/
def proseRaw : List Char := "Sure! ".toList ++ (innerObj ++ " Thanks.".toList)

/-- The object json.loads produces from innerObj. -/
def fields90 : List (String × Json) := [("overall_score", Json.num 90)]

/-- The behaviour of json.loads on innerObj. -/
def parse90 : List Char → Option (List (String × Json)) :=
  fun s => if s = innerObj then some fields90 else none

/-- A JSON object reply with a fractional score and an extra field, and
without final_summary or rubric_evaluation. -/
def innerFrac : List Char :=
  lbrace :: ("\"overall_score\": 0.9, \"extra\": true".toList ++ [rbrace])

/-- The object json.loads produces from innerFrac. -/
def fieldsFrac : List (String × Json) :=
  [("overall_score", Json.num (9/10)), ("extra", Json.bool true)]

/-- The behaviour of json.loads on innerFrac. -/
def parseFrac : List Char → Option (List (String × Json)) :=
  fun s => if s = innerFrac then some fieldsFrac else none

/-! Claim theorems. -/

/-- C1 (amended): the grading pipeline stores normalize_score of the parsed
score in the returned result, and that value is an integer in [0,100] only
when the parsed score lies in (0, 10]; every other parsed score — above
100, negative, or non-integer above 10 — passes through unchanged, with no
final clamp or truncation. -/
theorem score_in_range_only_when_scaled :
    (∀ (bank : List Question) (question_id answer_text : String) (q : Question)
      (raw cleanJson : List Char) (parse : List Char → Option (List (String × Json)))
      (fields : List (String × Json)) (s : ℚ),
      get_question_by_id bank question_id = some q →
      extractJsonStr raw = some cleanJson →
      parse cleanJson = some fields →
      lookupField fields "overall_score" = some (Json.num s) →
      perform_evaluation bank question_id answer_text (some raw) parse =
        Except.ok (setField fields "overall_score" (Json.num (normalize_score s)))) ∧
    (∀ s : ℚ, 0 < s → s ≤ 10 →
      ∃ n : ℤ, normalize_score s = (n : ℚ) ∧ 0 ≤ n ∧ n ≤ 100) ∧
    (∀ s : ℚ, ¬ (0 < s ∧ s ≤ 10) → normalize_score s = s) := by
  refine ⟨?_, ?_, normalize_score_other⟩
  · intro bank question_id answer_text q raw cleanJson parse fields s hq hex hp hs
    simp [perform_evaluation, hq, evalBody, hex, hp, applyNormalization, hs]
  · intro s hs0 hs10
    by_cases h1 : s ≤ 1
    · refine ⟨pyInt (s * 100), normalize_score_low s hs0 h1, ?_, ?_⟩
      · rw [pyInt_eq_floor _ (not_lt.mpr (by linarith))]
        exact Int.floor_nonneg.mpr (by linarith)
      · rw [pyInt_eq_floor _ (not_lt.mpr (by linarith))]
        have h100 : (s * 100 : ℚ) ≤ 100 := by linarith
        calc ⌊s * 100⌋ ≤ ⌊(100 : ℚ)⌋ := Int.floor_le_floor h100
          _ = 100 := by norm_num
    · push_neg at h1
      rw [normalize_score_mid s h1 hs10]
      by_cases hcap : 100 < pyInt (s / 5 * 100)
      · exact ⟨100, by rw [if_pos hcap]; norm_num, by norm_num, le_refl 100⟩
      · refine ⟨pyInt (s / 5 * 100), by rw [if_neg hcap], ?_, not_lt.mp hcap⟩
        rw [pyInt_eq_floor _ (not_lt.mpr (by linarith))]
        exact Int.floor_nonneg.mpr (by linarith)

/-- C1 counterexample: with the model reply carrying overall_score 150 the
pipeline returns overall_score 150, above 100, so the claimed clamp into
[0,100] does not happen. -/
theorem overall_score_not_clamped_cx :
    perform_evaluation bank1 "q1" "an answer" (some raw150) parse150 =
      Except.ok [("overall_score", Json.num 150)] ∧
    ¬ ((150 : ℚ) ≤ 100) := ⟨rfl, by norm_num⟩

/-- C1 amended witness at the concrete scores one half and 150. -/
theorem score_in_range_only_when_scaled_w :
    normalize_score 150 = 150 ∧ ¬ ((0 : ℚ) < 150 ∧ (150 : ℚ) ≤ 10) :=
  ⟨score_in_range_only_when_scaled.2.2 150 (by norm_num), by norm_num⟩

/-- C2 (amended): for a known question a reply with no brace pair yields the
fixed 70-score fallback result, but when the extracted substring fails to
parse, the raised json.loads error is caught by the blanket handler and the
0-score system-error result is returned instead of the fallback. -/
theorem no_json_fallback_vs_parse_error :
    (∀ (bank : List Question) (question_id answer_text : String) (q : Question)
      (raw : List Char) (parse : List Char → Option (List (String × Json))),
      get_question_by_id bank question_id = some q →
      extractJsonStr raw = none →
      perform_evaluation bank question_id answer_text (some raw) parse =
        Except.ok fallbackResult) ∧
    (∀ (bank : List Question) (question_id answer_text : String) (q : Question)
      (raw cleanJson : List Char) (parse : List Char → Option (List (String × Json))),
      get_question_by_id bank question_id = some q →
      extractJsonStr raw = some cleanJson →
      parse cleanJson = none →
      perform_evaluation bank question_id answer_text (some raw) parse =
        Except.ok systemErrorResult) ∧
    lookupField fallbackResult "overall_score" = some (Json.num 70) ∧
    lookupField fallbackResult "rubric_evaluation" = some (Json.arr []) ∧
    lookupField systemErrorResult "overall_score" = some (Json.num 0) := by
  refine ⟨?_, ?_, rfl, rfl, rfl⟩
  · intro bank question_id answer_text q raw parse hq hex
    simp [perform_evaluation, hq, evalBody, hex]
  · intro bank question_id answer_text q raw cleanJson parse hq hex hp
    simp [perform_evaluation, hq, evalBody, hex, hp]

/-- C2 counterexample: the reply rawBad holds a brace pair whose extraction
does not parse, and the pipeline returns the 0-score system-error result,
not the 70-score fallback the claim requires. -/
theorem parse_failure_not_fallback_cx :
    perform_evaluation bank1 "q1" "an answer" (some rawBad) (fun _ => none) =
      Except.ok systemErrorResult ∧
    lookupField systemErrorResult "overall_score" = some (Json.num 0) ∧
    Json.num (0 : ℚ) ≠ Json.num 70 := by
  refine ⟨rfl, rfl, ?_⟩
  intro h
  injection h with h2
  exact absurd h2 (by norm_num)

/-- C2 amended witness: a concrete braceless reply produces the fallback. -/
theorem no_json_fallback_vs_parse_error_w :
    perform_evaluation bank1 "q1" "an answer" (some "no json here".toList)
      (fun _ => none) = Except.ok fallbackResult :=
  no_json_fallback_vs_parse_error.1 bank1 "q1" "an answer" q1 "no json here".toList
    (fun _ => none) rfl rfl

/-- C3: for a known question id every raise inside stages 3-4 — the model
call raising, the extracted substring failing to parse, or a TypeError
during normalization — is absorbed into the fixed 0-score system-error
result, and the pipeline returns a result under every oracle behaviour. -/
theorem exceptions_absorbed_to_system_error
    (bank : List Question) (question_id answer_text : String) (q : Question)
    (hq : get_question_by_id bank question_id = some q) :
    (∀ parse, perform_evaluation bank question_id answer_text none parse =
      Except.ok systemErrorResult) ∧
    (∀ (raw cleanJson : List Char) parse,
      extractJsonStr raw = some cleanJson → parse cleanJson = none →
      perform_evaluation bank question_id answer_text (some raw) parse =
        Except.ok systemErrorResult) ∧
    (∀ (raw cleanJson : List Char) parse fields,
      extractJsonStr raw = some cleanJson → parse cleanJson = some fields →
      applyNormalization fields = none →
      perform_evaluation bank question_id answer_text (some raw) parse =
        Except.ok systemErrorResult) ∧
    (∀ modelReply parse, ∃ result,
      perform_evaluation bank question_id answer_text modelReply parse =
        Except.ok result) := by
  refine ⟨?_, ?_, ?_, ?_⟩
  · intro parse; simp [perform_evaluation, hq, evalBody]
  · intro raw cleanJson parse hex hp
    simp [perform_evaluation, hq, evalBody, hex, hp]
  · intro raw cleanJson parse fields hex hp hs
    simp [perform_evaluation, hq, evalBody, hex, hp, hs]
  · intro modelReply parse
    exact ⟨evalBody modelReply parse, by simp [perform_evaluation, hq]⟩

/-- C3 witness: a raising model call on the concrete bank yields the
system-error result. -/
theorem exceptions_absorbed_to_system_error_w :
    perform_evaluation bank1 "q1" "an answer" none (fun _ => none) =
      Except.ok systemErrorResult :=
  (exceptions_absorbed_to_system_error bank1 "q1" "an answer" q1 rfl).1 (fun _ => none)

/-- C4 (amended): for a parsed score s with 1 < s ≤ 10 the code computes
int((s/5)*100), the floor of s*20 capped at 100 inside the branch — a
five-point scale times twenty, not times ten; the worked example is 4 → 80. -/
theorem five_point_branch :
    (∀ s : ℚ, 1 < s → s ≤ 10 →
      normalize_score s =
        if 100 < ⌊s * 20⌋ then (100 : ℚ) else ((⌊s * 20⌋ : ℤ) : ℚ)) ∧
    normalize_score 4 = 80 := by
  constructor
  · intro s h1 h10
    have he : s / 5 * 100 = s * 20 := by ring
    have hnn : ¬ s / 5 * 100 < 0 := not_lt.mpr (by linarith)
    rw [normalize_score_mid s h1 h10, pyInt_eq_floor _ hnn, he]
  · rw [normalize_score_mid 4 (by norm_num) (by norm_num),
      show ((4 : ℚ) / 5 * 100) = ((80 : ℕ) : ℚ) by norm_num, pyInt_natCast]
    norm_num

/-- C4 counterexample: at parsed score 4 the normalized value is 80 while
the claimed formula s*10 gives 40. -/
theorem times_ten_cx : normalize_score 4 = 80 ∧ (4 : ℚ) * 10 ≠ 80 := by
  refine ⟨?_, by norm_num⟩
  rw [normalize_score_mid 4 (by norm_num) (by norm_num),
    show ((4 : ℚ) / 5 * 100) = ((80 : ℕ) : ℚ) by norm_num, pyInt_natCast]
  norm_num

/-- C4 amended witness at the concrete score 4. -/
theorem five_point_branch_w :
    normalize_score 4 =
      if 100 < ⌊(4 : ℚ) * 20⌋ then (100 : ℚ) else ((⌊(4 : ℚ) * 20⌋ : ℤ) : ℚ) :=
  five_point_branch.1 4 (by norm_num) (by norm_num)

/-- C5: a parsed score in (0,1] is scaled to the truncation of s*100 with
0.85 → 85, a score of exactly 0 or above 10 passes through unscaled with
0 → 0 and 42 → 42, and a parsed object without the overall_score key
defaults the score to 0. -/
theorem fraction_scale_and_passthrough :
    (∀ s : ℚ, 0 < s → s ≤ 1 → normalize_score s = ((pyInt (s * 100) : ℤ) : ℚ)) ∧
    normalize_score (17/20) = 85 ∧
    normalize_score 0 = 0 ∧
    (∀ s : ℚ, 10 < s → normalize_score s = s) ∧
    normalize_score 42 = 42 ∧
    (∀ fields : List (String × Json),
      lookupField fields "overall_score" = none →
      applyNormalization fields =
        some (setField fields "overall_score" (Json.num 0))) := by
  refine ⟨normalize_score_low, ?_, rfl, ?_, rfl, ?_⟩
  · rw [normalize_score_low (17/20) (by norm_num) (by norm_num),
      show ((17 : ℚ)/20 * 100) = ((85 : ℕ) : ℚ) by norm_num, pyInt_natCast]
    norm_num
  · intro s hs
    exact normalize_score_other s (by rintro ⟨_, hb⟩; linarith)
  · intro fields h
    simp [applyNormalization, h, show normalize_score 0 = 0 from rfl]

/-- C5 witness at the concrete scores one half and 11 and at an object
without the overall_score key. -/
theorem fraction_scale_and_passthrough_w :
    normalize_score (1/2) = ((pyInt ((1/2 : ℚ) * 100) : ℤ) : ℚ) ∧
    normalize_score 11 = 11 ∧
    applyNormalization [("final_summary", Json.str "ok")] =
      some (setField [("final_summary", Json.str "ok")] "overall_score"
        (Json.num 0)) :=
  ⟨fraction_scale_and_passthrough.1 (1/2) (by norm_num) (by norm_num),
   fraction_scale_and_passthrough.2.2.2.1 11 (by norm_num),
   fraction_scale_and_passthrough.2.2.2.2.2 _ rfl⟩

/-- C6: JSON extraction returns exactly the substring from the first opening
brace to the last closing brace, inclusive, so the prose-wrapped reply
proseRaw yields the embedded object innerObj and the pipeline hands exactly
that substring to json.loads. -/
theorem extraction_first_to_last_brace :
    (∀ pre mid post : List Char, lbrace ∉ pre → rbrace ∉ post →
      extractJsonStr (pre ++ lbrace :: (mid ++ rbrace :: post)) =
        some (lbrace :: (mid ++ [rbrace]))) ∧
    extractJsonStr proseRaw = some innerObj ∧
    (∀ (parse : List Char → Option (List (String × Json))) fields s,
      parse innerObj = some fields →
      lookupField fields "overall_score" = some (Json.num s) →
      evalBody (some proseRaw) parse =
        setField fields "overall_score" (Json.num (normalize_score s))) := by
  refine ⟨extractJsonStr_split, rfl, ?_⟩
  intro parse fields s hp hs
  simp [evalBody, show extractJsonStr proseRaw = some innerObj from rfl, hp,
    applyNormalization, hs]

/-- C6 witness: a concrete split reply and the prose-wrapped reply with the
concrete json.loads behaviour parse90. -/
theorem extraction_first_to_last_brace_w :
    extractJsonStr ("ab".toList ++ lbrace :: ("cd".toList ++ rbrace :: "ef".toList)) =
      some (lbrace :: ("cd".toList ++ [rbrace])) ∧
    evalBody (some proseRaw) parse90 =
      setField fields90 "overall_score" (Json.num (normalize_score 90)) :=
  ⟨extraction_first_to_last_brace.1 "ab".toList "cd".toList "ef".toList
      (by decide) (by decide),
   extraction_first_to_last_brace.2.2 parse90 fields90 90 rfl rfl⟩

/-- C7: an unknown question id makes perform_evaluation fail with the 404
NotFound regardless of the model oracle, a known id always produces a
well-formed ok result, and NotFound is the only error that ever crosses the
pipeline boundary. -/
theorem unknown_id_not_found :
    ∀ (bank : List Question) (question_id answer_text : String)
      (modelReply : Option (List Char))
      (parse : List Char → Option (List (String × Json))),
      (get_question_by_id bank question_id = none →
        perform_evaluation bank question_id answer_text modelReply parse =
          Except.error PipeError.notFound) ∧
      (∀ q, get_question_by_id bank question_id = some q →
        ∃ fields, perform_evaluation bank question_id answer_text modelReply parse =
          Except.ok fields) ∧
      (∀ e, perform_evaluation bank question_id answer_text modelReply parse =
          Except.error e →
        e = PipeError.notFound ∧ get_question_by_id bank question_id = none) := by
  intro bank question_id answer_text modelReply parse
  refine ⟨?_, ?_, ?_⟩
  · intro h; simp [perform_evaluation, h]
  · intro q hq; exact ⟨evalBody modelReply parse, by simp [perform_evaluation, hq]⟩
  · intro e he
    cases h : get_question_by_id bank question_id with
    | none => exact ⟨by cases e; rfl, rfl⟩
    | some q => simp [perform_evaluation, h] at he

/-- C7 witness: the id zz is absent from the concrete bank and yields the
404 error. -/
theorem unknown_id_not_found_w :
    perform_evaluation bank1 "zz" "an answer" none (fun _ => none) =
      Except.error PipeError.notFound :=
  (unknown_id_not_found bank1 "zz" "an answer" none (fun _ => none)).1 rfl

/-- C8: the topic filter keeps exactly the stored questions whose topic
contains the query as a case-insensitive substring, the query ece matches
the stored topic ECE, and an empty match list is an ordinary value of the
filter rather than an error. -/
theorem topic_filter_substring :
    (∀ (bank : List Question) (topic : String) (q : Question),
      q ∈ find_by_topic bank topic ↔
        q ∈ bank ∧ pyLower topic <:+: pyLower q.topic) ∧
    find_by_topic bank1 "ece" = [q1] ∧
    find_by_topic bank1 "math" = [] := by
  refine ⟨?_, rfl, rfl⟩
  intro bank topic q
  simp [find_by_topic, List.mem_filter]

/-- C9 (amended): the audio handler removes its temporary file on every exit
path that reaches the try/finally — success, the 404, a transcription or
grading raise — but when the upload copy itself raises, before the
try/finally, the file created by open remains on disk. -/
theorem temp_file_removed_after_copy (transcription : Option String)
    (bank : List Question) (question_id : String)
    (modelReply : Option (List Char))
    (parse : List Char → Option (List (String × Json))) :
    ( evaluate_audio true transcription bank question_id modelReply parse).2 = false := by
  cases transcription with
  | none => rfl
  | some text =>
    cases h : perform_evaluation bank question_id text modelReply parse with
    | error e => simp [ evaluate_audio, h]
    | ok result => simp [ evaluate_audio, h]

/-- C9 counterexample: when the copy of the upload raises, the handler exits
with the temporary file still present. -/
theorem temp_file_left_on_save_raise_cx :
    ( evaluate_audio false (some "hello") bank1 "q1" none (fun _ => none)).2 = true := rfl

/-- C10: on the successful parse path the pipeline returns exactly the parsed
object with only its overall_score key replaced by the normalized score;
every other key reads back unchanged, so missing or extra fields of the
model JSON persist into the result. -/
theorem success_result_is_parsed_object
    (raw cleanJson : List Char) (parse : List Char → Option (List (String × Json)))
    (fields : List (String × Json)) (s : ℚ)
    (hex : extractJsonStr raw = some cleanJson)
    (hp : parse cleanJson = some fields)
    (hs : lookupField fields "overall_score" = some (Json.num s)) :
    evalBody (some raw) parse =
      setField fields "overall_score" (Json.num (normalize_score s)) ∧
    lookupField (evalBody (some raw) parse) "overall_score" =
      some (Json.num (normalize_score s)) ∧
    (∀ k, k ≠ "overall_score" →
      lookupField (evalBody (some raw) parse) k = lookupField fields k) := by
  have h1 : evalBody (some raw) parse =
      setField fields "overall_score" (Json.num (normalize_score s)) := by
    simp [evalBody, hex, hp, applyNormalization, hs]
  refine ⟨h1, ?_, ?_⟩
  · rw [h1]; exact lookupField_setField_same fields "overall_score" _
  · intro k hk; rw [h1]; exact lookupField_setField_other fields "overall_score" k _ hk

/-- C10 witness: a parsed object with a fractional score, an extra boolean
field, and no final_summary passes through with only overall_score
replaced. -/
theorem success_result_is_parsed_object_w :
    lookupField (evalBody (some innerFrac) parseFrac) "overall_score" =
      some (Json.num (normalize_score (9/10))) ∧
    lookupField (evalBody (some innerFrac) parseFrac) "final_summary" = none ∧
    lookupField (evalBody (some innerFrac) parseFrac) "extra" =
      some (Json.bool true) := by
  have h := success_result_is_parsed_object innerFrac innerFrac parseFrac fieldsFrac
    (9/10) rfl rfl rfl
  refine ⟨h.2.1, ?_, ?_⟩
  · rw [h.2.2 "final_summary" (by decide)]; rfl
  · rw [h.2.2 "extra" (by decide)]; rfl

/-- C8 witness: the concrete stored question is kept by the lowercase query
against its uppercase topic. -/
theorem topic_filter_substring_w :
    q1 ∈ find_by_topic bank1 "ece" ∧ pyLower "ece" <:+: pyLower q1.topic :=
  ⟨(topic_filter_substring.1 bank1 "ece" q1).mpr
      ⟨List.mem_singleton_self q1, by decide⟩, by decide⟩

/-- C9 amended witness: a concrete run past the copy removes the file. -/
theorem temp_file_removed_after_copy_w :
    ( evaluate_audio true (some "hello") bank1 "q1" none (fun _ => none)).2 = false :=
  temp_file_removed_after_copy (some "hello") bank1 "q1" none (fun _ => none)
